import Mathlib

/-!
Verification of the FDCA RVV vector-engine runtime (kernel driver core).

Shallow embedding of the C sources:
  - fdca_rvv_config.c   : capability/configuration validation
  - fdca_rvv_state.c/.h : VTYPE parsing and CSR-context validation
  - fdca_rvv_instr.c/.h : instruction decoding, parsing, validation, hazards
  - fdca_vrf.c          : 32-entry bitmap register allocator
  - fdca_vector_mem.c   : vector memory operation execution

Machine integers are modelled as Nat (bit-field extraction uses shifts and
masks exactly as the C macros do; none of the modelled arithmetic can
overflow the C types at the widths involved).  Fallible C functions that
return 0 or a negative errno are modelled as Int-valued functions; the
errno constants appear below.
-/

namespace FDCA

/-! ### errno constants (linux errno values used by the driver) -/

def EINVAL : Int := 22
def ENODEV : Int := 19
def ENOMEM : Int := 12
def ERANGE : Int := 34
def ENOSPC : Int := 28
def EIO : Int := 5
def ETIMEDOUT : Int := 110

def FDCA_RVV_NUM_VREGS : Nat := 32

/-! ### fdca_rvv_config.c : capability model -/

/-- Hardware capability descriptor (struct fdca_rvv_config, the fields read
by fdca_rvv_config_validate). -/
structure RvvConfig where
  vlen : Nat
  elen : Nat
  num_lanes : Nat
deriving Repr, DecidableEq

/-- fdca_rvv_config_validate (fdca_rvv_config.c:16-40).  The C function
receives the device, reads its rvv_config and returns 0 / -EINVAL; it never
writes the configuration, which the embedding makes explicit by threading
the configuration through unchanged. -/
def fdca_rvv_config_validate (c : RvvConfig) : Int × RvvConfig :=
  if c.vlen < 128 ∨ 65536 < c.vlen then (-EINVAL, c)
  else if 64 < c.elen then (-EINVAL, c)
  else if c.num_lanes = 0 ∨ 16 < c.num_lanes then (-EINVAL, c)
  else (0, c)

/-! ### fdca_rvv_state.h : VTYPE field helpers -/

/-- fdca_rvv_get_sew_bits (fdca_rvv_state.h:283): SEW = 8 << vsew. -/
def fdca_rvv_get_sew_bits (vsew : Nat) : Nat := 8 <<< vsew

/-- fdca_rvv_get_lmul_fraction (fdca_rvv_state.h:288-300), returning the
(mul, div) pair written through the two out-parameters. -/
def fdca_rvv_get_lmul_fraction (vlmul : Nat) : Nat × Nat :=
  if vlmul ≤ 3 then (1 <<< vlmul, 1)
  else if 5 ≤ vlmul ∧ vlmul ≤ 7 then (1, 1 <<< (8 - vlmul))
  else (1, 1)

/-- Parsed view of VTYPE (the anonymous struct fdca_rvv_csr_context.parsed,
fdca_rvv_state.h:94-103). -/
structure VtypeParsed where
  vlmul : Nat
  vsew : Nat
  vta : Bool
  vma : Bool
  vill : Bool
  sew_bits : Nat
  lmul_mul : Nat
  lmul_div : Nat
deriving Repr, DecidableEq

/-- fdca_rvv_csr_parse_vtype (fdca_rvv_state.c:115-138) as a function from
the raw 64-bit VTYPE value and the previous parsed view to the new parsed
view.  When bit 63 (FDCA_VTYPE_VILL) is set the C code stores vill and
returns early, leaving every other parsed field untouched. -/
def fdca_rvv_csr_parse_vtype (vtype : Nat) (old : VtypeParsed) : VtypeParsed :=
  if vtype.testBit 63 then
    { old with vill := true }
  else
    let vlmul := vtype &&& 0x7
    let vsew := (vtype >>> 3) &&& 0x7
    let f := fdca_rvv_get_lmul_fraction vlmul
    { vlmul := vlmul
      vsew := vsew
      vta := vtype.testBit 6
      vma := vtype.testBit 7
      vill := false
      sew_bits := fdca_rvv_get_sew_bits vsew
      lmul_mul := f.1
      lmul_div := f.2 }

/-- CSR context (struct fdca_rvv_csr_context, fdca_rvv_state.h:83-110).
The bookkeeping fields (valid, dirty, save_time, save_count) are not read
by any modelled operation and are omitted. -/
structure CsrContext where
  vstart : Nat
  vxsat : Nat
  vxrm : Nat
  vcsr : Nat
  vl : Nat
  vtype : Nat
  vlenb : Nat
  parsed : VtypeParsed
deriving Repr, DecidableEq

/-- fdca_rvv_csr_validate (fdca_rvv_state.c:225-250).  The VL range check
in the C code runs under the global manager's hardware configuration; the
embedding takes that configuration as the explicit argument hw (the spec's
validate(capability)). -/
def fdca_rvv_csr_validate (hw : RvvConfig) (ctx : CsrContext) : Int :=
  if ctx.parsed.vill then -EINVAL
  else if hw.vlen / ctx.parsed.sew_bits < ctx.vl then -ERANGE
  else if ctx.vl < ctx.vstart then -ERANGE
  else 0

/-! ### fdca_rvv_instr.h / fdca_rvv_instr.c : instruction model -/

/-- enum fdca_rvv_instr_type (fdca_rvv_instr.h:15-21). -/
inductive RvvInstrType where
  | VMEM
  | VAMO
  | VARITH
  | VSETVLI
  | INVALID
deriving Repr, DecidableEq

/-- enum fdca_vmem_type (fdca_rvv_instr.h:24-30). -/
inductive VmemType where
  | UNIT_STRIDE
  | STRIDED
  | INDEXED
  | SEGMENT
  | WHOLE_REG
deriving Repr, DecidableEq

/-- enum fdca_varith_type (fdca_rvv_instr.h:33-44). -/
inductive VarithType where
  | ADD
  | SUB
  | MUL
  | DIV
  | AND
  | OR
  | XOR
  | SHIFT
  | CMP
  | REDUCE
deriving Repr, DecidableEq

/-- struct fdca_rvv_instr (fdca_rvv_instr.h:47-74).  The C unions are
modelled as separate fields: vmem_type/varith_type both present, and the
imm/stride/vl_setting union as the single field vl_setting (the only
member any modelled operation reads). -/
structure RvvInstr where
  opcode : Nat
  type : RvvInstrType
  vmem_type : VmemType
  varith_type : VarithType
  vd : Nat
  vs1 : Nat
  vs2 : Nat
  vm : Bool
  vl_setting : Nat
  uses_mask : Bool
  modifies_vl : Bool
  memory_access : Bool
  latency : Nat
deriving Repr, DecidableEq

/-- fdca_rvv_decode_instr_type (fdca_rvv_instr.c:28-60).  The C switch on
the 7-bit base opcode (0x07/0x27 load/store, 0x57 arithmetic class with an
inner switch on funct3 cases 0x0-0x6 / 0x7, 0x43 madd, default invalid)
written as the equivalent equality chain.  funct3 is 3 bits, so the inner
default branch of the C switch is unreachable. -/
def fdca_rvv_decode_instr_type (opcode : Nat) : RvvInstrType :=
  if opcode &&& 0x7F = 0x07 ∨ opcode &&& 0x7F = 0x27 then RvvInstrType.VMEM
  else if opcode &&& 0x7F = 0x57 then
    (if (opcode >>> 12) &&& 0x7 ≤ 0x6 then RvvInstrType.VARITH
     else if (opcode >>> 12) &&& 0x7 = 0x7 then RvvInstrType.VSETVLI
     else RvvInstrType.INVALID)
  else if opcode &&& 0x7F = 0x43 then RvvInstrType.VARITH
  else RvvInstrType.INVALID

/-- fdca_rvv_decode_vmem_type (fdca_rvv_instr.c:65-84): switch on funct3. -/
def fdca_rvv_decode_vmem_type (opcode : Nat) : VmemType :=
  if (opcode >>> 12) &&& 0x7 = 0x0 then VmemType.UNIT_STRIDE
  else if (opcode >>> 12) &&& 0x7 = 0x2 then VmemType.STRIDED
  else if (opcode >>> 12) &&& 0x7 = 0x3 then VmemType.INDEXED
  else if (opcode >>> 12) &&& 0x7 = 0x1 then VmemType.SEGMENT
  else if (opcode >>> 12) &&& 0x7 = 0x4 then VmemType.WHOLE_REG
  else VmemType.UNIT_STRIDE

/-- fdca_rvv_decode_varith_type (fdca_rvv_instr.c:89-122): switch on
funct6.  The source lists case 0x00 twice (vadd and the vredsum comment);
the first arm (ADD) governs, so REDUCE is never produced. -/
def fdca_rvv_decode_varith_type (opcode : Nat) : VarithType :=
  if (opcode >>> 26) &&& 0x3F = 0x00 then VarithType.ADD
  else if (opcode >>> 26) &&& 0x3F = 0x02 then VarithType.SUB
  else if (opcode >>> 26) &&& 0x3F = 0x25 then VarithType.MUL
  else if (opcode >>> 26) &&& 0x3F = 0x20 then VarithType.DIV
  else if (opcode >>> 26) &&& 0x3F = 0x24 then VarithType.AND
  else if (opcode >>> 26) &&& 0x3F = 0x28 then VarithType.OR
  else if (opcode >>> 26) &&& 0x3F = 0x2C then VarithType.XOR
  else if (opcode >>> 26) &&& 0x3F = 0x30 ∨ (opcode >>> 26) &&& 0x3F = 0x34
       ∨ (opcode >>> 26) &&& 0x3F = 0x38 then VarithType.SHIFT
  else if (opcode >>> 26) &&& 0x3F = 0x18 ∨ (opcode >>> 26) &&& 0x3F = 0x19
       ∨ (opcode >>> 26) &&& 0x3F = 0x1A ∨ (opcode >>> 26) &&& 0x3F = 0x1B
       then VarithType.CMP
  else VarithType.ADD

/-- fdca_rvv_parse_instr (fdca_rvv_instr.c:127-175).  The NULL-descriptor
guard has no counterpart in the value-level embedding; the memset produces
the zeroed descriptor the field assignments then update. -/
def fdca_rvv_parse_instr (opcode : Nat) : Except Int RvvInstr :=
  let t := fdca_rvv_decode_instr_type opcode
  if t = RvvInstrType.INVALID then Except.error (-EINVAL)
  else
    let vm : Bool := (opcode >>> 25) &&& 0x1 == 0
    let i0 : RvvInstr :=
      { opcode := opcode
        type := t
        vmem_type := VmemType.UNIT_STRIDE
        varith_type := VarithType.ADD
        vd := (opcode >>> 7) &&& 0x1F
        vs1 := (opcode >>> 15) &&& 0x1F
        vs2 := (opcode >>> 20) &&& 0x1F
        vm := vm
        vl_setting := 0
        uses_mask := false
        modifies_vl := false
        memory_access := false
        latency := 0 }
    match t with
    | RvvInstrType.VMEM =>
        Except.ok { i0 with
          vmem_type := fdca_rvv_decode_vmem_type opcode
          memory_access := true
          uses_mask := vm
          latency := 10 }
    | RvvInstrType.VARITH =>
        let va := fdca_rvv_decode_varith_type opcode
        Except.ok { i0 with
          varith_type := va
          memory_access := false
          uses_mask := vm
          latency := if va = VarithType.MUL ∨ va = VarithType.DIV then 5 else 2 }
    | RvvInstrType.VSETVLI =>
        Except.ok { i0 with
          vl_setting := (opcode >>> 15) &&& 0x1F
          modifies_vl := true
          memory_access := false
          latency := 1 }
    | _ => Except.error (-EINVAL)

/-- fdca_rvv_validate_instr (fdca_rvv_instr.c:180-216). -/
def fdca_rvv_validate_instr (i : RvvInstr) : Int :=
  if FDCA_RVV_NUM_VREGS ≤ i.vd ∨ FDCA_RVV_NUM_VREGS ≤ i.vs1
     ∨ FDCA_RVV_NUM_VREGS ≤ i.vs2 then -ERANGE
  else
    match i.type with
    | RvvInstrType.VMEM =>
        if i.uses_mask = true ∧ i.vd = 0 then -EINVAL else 0
    | RvvInstrType.VARITH =>
        if i.varith_type = VarithType.REDUCE ∧ i.vd ≠ i.vs1 then -EINVAL
        else 0
    | RvvInstrType.VSETVLI =>
        if 1024 < i.vl_setting then -ERANGE else 0
    | _ => -EINVAL

/-- fdca_rvv_instr_conflicts (fdca_rvv_instr.c:221-253).  The C body is a
sequence of early `return true` checks; the embedding is their
disjunction.  The NULL guards (return false) have no value-level
counterpart. -/
def fdca_rvv_instr_conflicts (a b : RvvInstr) : Bool :=
  (a.modifies_vl || b.modifies_vl) ||
  (a.vd == b.vd) ||
  (a.vd == b.vs1 || a.vd == b.vs2) ||
  (b.vd == a.vs1 || b.vd == a.vs2) ||
  ((a.uses_mask || b.uses_mask) && (a.vd == 0 || b.vd == 0)) ||
  (a.memory_access && b.memory_access)

/-- A plain VARITH descriptor used in the hazard scenarios: no VL
modification, no memory access, no mask use. -/
def plainInstr (vd vs1 vs2 : Nat) : RvvInstr :=
  { opcode := 0
    type := RvvInstrType.VARITH
    vmem_type := VmemType.UNIT_STRIDE
    varith_type := VarithType.ADD
    vd := vd
    vs1 := vs1
    vs2 := vs2
    vm := false
    vl_setting := 0
    uses_mask := false
    modifies_vl := false
    memory_access := false
    latency := 2 }

/-! ### Theorems for claims C1, C2, C6 -/

/-- Case analysis of the LMUL fraction helper. -/
theorem lmul_fraction_cases (v : Nat) :
    (v ≤ 3 → fdca_rvv_get_lmul_fraction v = (2 ^ v, 1))
    ∧ (5 ≤ v ∧ v ≤ 7 → fdca_rvv_get_lmul_fraction v = (1, 2 ^ (8 - v)))
    ∧ (v = 4 → fdca_rvv_get_lmul_fraction v = (1, 1)) := by
  unfold fdca_rvv_get_lmul_fraction
  refine ⟨?_, ?_, ?_⟩ <;> intro h <;> split_ifs <;>
    simp_all [Nat.shiftLeft_eq] <;> omega

/-- Parsing VTYPE = 0 produces the all-clear configuration. -/
theorem parse_vtype_zero (old : VtypeParsed) :
    fdca_rvv_csr_parse_vtype 0 old =
      { vlmul := 0, vsew := 0, vta := false, vma := false, vill := false,
        sew_bits := 8, lmul_mul := 1, lmul_div := 1 } := by
  simp [fdca_rvv_csr_parse_vtype, fdca_rvv_get_sew_bits,
    fdca_rvv_get_lmul_fraction]

/-- Claim C1: capability validation succeeds iff 128 ≤ vlen ≤ 65536,
elen ≤ 64 and 1 ≤ num_lanes ≤ 16; on any bound violation it fails with
InvalidConfig (-EINVAL); and it leaves the configuration unchanged. -/
theorem C1_config_validate (c : RvvConfig) :
    ((fdca_rvv_config_validate c).1 = 0 ↔
      (128 ≤ c.vlen ∧ c.vlen ≤ 65536 ∧ c.elen ≤ 64 ∧
       1 ≤ c.num_lanes ∧ c.num_lanes ≤ 16))
    ∧ ((fdca_rvv_config_validate c).1 = 0 ∨
       (fdca_rvv_config_validate c).1 = -EINVAL)
    ∧ (fdca_rvv_config_validate c).2 = c := by
  unfold fdca_rvv_config_validate
  split_ifs <;> simp_all [EINVAL] <;> omega

/-- Claim C2: parse_vtype sets vill from bit 63 and short-circuits when it
is set; otherwise it derives sew_bits = 8 << vsew and the LMUL ratio
(vlmul 0-3: multiplier 2^vlmul, divisor 1; vlmul 5-7: multiplier 1,
divisor 2^(8-vlmul); reserved vlmul 4: ratio 1); and vtype = 0 parses to
vlmul=0, vsew=0, vta=false, vma=false, vill=false. -/
theorem C2_parse_vtype (vtype : Nat) (old : VtypeParsed) :
    (fdca_rvv_csr_parse_vtype vtype old).vill = vtype.testBit 63
    ∧ (vtype.testBit 63 = true →
        fdca_rvv_csr_parse_vtype vtype old = { old with vill := true })
    ∧ (vtype.testBit 63 = false →
        (fdca_rvv_csr_parse_vtype vtype old).sew_bits
            = 8 <<< (fdca_rvv_csr_parse_vtype vtype old).vsew
        ∧ (fdca_rvv_csr_parse_vtype vtype old).vlmul < 8
        ∧ ((fdca_rvv_csr_parse_vtype vtype old).vlmul ≤ 3 →
            (fdca_rvv_csr_parse_vtype vtype old).lmul_mul
                = 2 ^ (fdca_rvv_csr_parse_vtype vtype old).vlmul
            ∧ (fdca_rvv_csr_parse_vtype vtype old).lmul_div = 1)
        ∧ (5 ≤ (fdca_rvv_csr_parse_vtype vtype old).vlmul →
            (fdca_rvv_csr_parse_vtype vtype old).lmul_mul = 1
            ∧ (fdca_rvv_csr_parse_vtype vtype old).lmul_div
                = 2 ^ (8 - (fdca_rvv_csr_parse_vtype vtype old).vlmul))
        ∧ ((fdca_rvv_csr_parse_vtype vtype old).vlmul = 4 →
            (fdca_rvv_csr_parse_vtype vtype old).lmul_mul = 1
            ∧ (fdca_rvv_csr_parse_vtype vtype old).lmul_div = 1))
    ∧ fdca_rvv_csr_parse_vtype 0 old =
        { vlmul := 0, vsew := 0, vta := false, vma := false, vill := false,
          sew_bits := 8, lmul_mul := 1, lmul_div := 1 } := by
  have hlm : vtype &&& 0x7 < 8 :=
    Nat.lt_succ_of_le (Nat.and_le_right)
  by_cases h : vtype.testBit 63 = true
  · refine ⟨?_, ?_, ?_, parse_vtype_zero old⟩
    · simp [fdca_rvv_csr_parse_vtype, h]
    · intro _; simp [fdca_rvv_csr_parse_vtype, h]
    · intro hc; rw [h] at hc; exact absurd hc (by simp)
  · rw [Bool.not_eq_true] at h
    refine ⟨?_, ?_, ?_, parse_vtype_zero old⟩
    · simp [fdca_rvv_csr_parse_vtype, h]
    · intro hc; rw [h] at hc; exact absurd hc (by simp)
    · intro _
      simp only [fdca_rvv_csr_parse_vtype, fdca_rvv_get_sew_bits, h,
        Bool.false_eq_true, if_false]
      refine ⟨by trivial, hlm, ?_, ?_, ?_⟩
      · intro hv
        rw [(lmul_fraction_cases (vtype &&& 0x7)).1 hv]
        exact ⟨rfl, rfl⟩
      · intro hv
        rw [(lmul_fraction_cases (vtype &&& 0x7)).2.1 ⟨hv, by omega⟩]
        exact ⟨rfl, rfl⟩
      · intro hv
        rw [(lmul_fraction_cases (vtype &&& 0x7)).2.2 hv]
        exact ⟨rfl, rfl⟩

/-- A concrete previous parsed view used by the C2 witness. -/
def C2_old : VtypeParsed :=
  { vlmul := 3, vsew := 2, vta := true, vma := false, vill := false,
    sew_bits := 32, lmul_mul := 8, lmul_div := 1 }

/-- Witness for C2 at the concrete VTYPE values 2^63 (vill set:
short-circuit) and 13 (vill clear, vlmul = 5: fractional LMUL 1/8). -/
theorem C2_parse_vtype_witness :
    fdca_rvv_csr_parse_vtype (2 ^ 63) C2_old = { C2_old with vill := true }
    ∧ ((fdca_rvv_csr_parse_vtype 13 C2_old).lmul_mul = 1
       ∧ (fdca_rvv_csr_parse_vtype 13 C2_old).lmul_div
           = 2 ^ (8 - (fdca_rvv_csr_parse_vtype 13 C2_old).vlmul)) :=
  ⟨(C2_parse_vtype (2 ^ 63) C2_old).2.1 (by decide),
   ((C2_parse_vtype 13 C2_old).2.2.1 (by decide)).2.2.2.1 (by decide)⟩

/-- Claim C6: CSR validation fails with IllegalVtype (-EINVAL) when the
parsed vill flag is set; otherwise it fails with RangeError (-ERANGE)
exactly when vl > vlen/sew_bits or vstart > vl, and succeeds exactly when
both bounds hold.  (The parsed sew_bits of any well-formed context is
8 << vsew > 0; the hypothesis excludes the division by zero that the C
code would perform on a malformed context.) -/
theorem C6_csr_validate (hw : RvvConfig) (ctx : CsrContext)
    (hsew : 0 < ctx.parsed.sew_bits) :
    (ctx.parsed.vill = true → fdca_rvv_csr_validate hw ctx = -EINVAL)
    ∧ (ctx.parsed.vill = false →
        ((fdca_rvv_csr_validate hw ctx = -ERANGE ↔
          (hw.vlen / ctx.parsed.sew_bits < ctx.vl ∨ ctx.vl < ctx.vstart))
        ∧ (fdca_rvv_csr_validate hw ctx = 0 ↔
          (ctx.vl ≤ hw.vlen / ctx.parsed.sew_bits ∧ ctx.vstart ≤ ctx.vl)))) := by
  unfold fdca_rvv_csr_validate
  constructor
  · intro h; simp [h]
  · intro h
    simp only [h, Bool.false_eq_true, if_false]
    split_ifs with h1 h2 <;>
      constructor <;> simp_all [EINVAL, ERANGE] <;> omega

/-- Witness for C6 at a concrete context: vill clear, sew_bits = 8,
vl = 4, vstart = 2, hardware vlen = 1024; validation succeeds. -/
theorem C6_csr_validate_witness :
    (0 : Nat) <
      ({ vstart := 2, vxsat := 0, vxrm := 0, vcsr := 0, vl := 4, vtype := 0,
         vlenb := 128,
         parsed := { vlmul := 0, vsew := 0, vta := false, vma := false,
                     vill := false, sew_bits := 8, lmul_mul := 1,
                     lmul_div := 1 } } : CsrContext).parsed.sew_bits
    ∧ fdca_rvv_csr_validate { vlen := 1024, elen := 64, num_lanes := 4 }
        { vstart := 2, vxsat := 0, vxrm := 0, vcsr := 0, vl := 4, vtype := 0,
          vlenb := 128,
          parsed := { vlmul := 0, vsew := 0, vta := false, vma := false,
                      vill := false, sew_bits := 8, lmul_mul := 1,
                      lmul_div := 1 } } = 0 :=
  ⟨by decide,
    ((C6_csr_validate { vlen := 1024, elen := 64, num_lanes := 4 }
      { vstart := 2, vxsat := 0, vxrm := 0, vcsr := 0, vl := 4, vtype := 0,
        vlenb := 128,
        parsed := { vlmul := 0, vsew := 0, vta := false, vma := false,
                    vill := false, sew_bits := 8, lmul_mul := 1,
                    lmul_div := 1 } } (by decide)).2 rfl).2.mpr (by decide)⟩

/-! ### fdca_vrf.c : bitmap register allocator -/

/-- find_first_zero_bit over the 32-entry allocation bitmap
(fdca_vrf.c:110): the least clear bit index, or 32 when every bit is
set.  The bitmap state is the Nat whose bits 0..31 mark allocated
registers. -/
def fdca_vrf_find_first_zero (s : Nat) : Nat :=
  match (List.range 32).find? (fun i => ! s.testBit i) with
  | some i => i
  | none => 32

/-- fdca_vrf_alloc_reg (fdca_vrf.c:102-120): returns the allocated index
(or -ENOSPC when all 32 are taken) together with the new bitmap. -/
def fdca_vrf_alloc_reg (s : Nat) : Int × Nat :=
  if fdca_vrf_find_first_zero s < 32 then
    ((fdca_vrf_find_first_zero s : Int), s ||| 2 ^ fdca_vrf_find_first_zero s)
  else (-ENOSPC, s)

/-- fdca_vrf_free_reg (fdca_vrf.c:125-135): out-of-range indices are
ignored; test_and_clear_bit clears the bit when it is set (clearing a set
bit is xor with that power of two). -/
def fdca_vrf_free_reg (r : Int) (s : Nat) : Nat :=
  if r < 0 ∨ 32 ≤ r then s
  else if s.testBit r.toNat then s ^^^ 2 ^ r.toNat else s

/-- All 32 register indices taken. -/
def vrfFull (s : Nat) : Prop := ∀ i < 32, s.testBit i = true

instance (s : Nat) : Decidable (vrfFull s) := by
  unfold vrfFull; infer_instance

/-- Number of free register indices. -/
def vrfFreeCount (s : Nat) : Nat :=
  ((Finset.range 32).filter (fun i => s.testBit i = false)).card

/-- Iterated allocation (state component only). -/
def fdca_vrf_alloc_iter : Nat → Nat → Nat
  | 0, s => s
  | n + 1, s => fdca_vrf_alloc_iter n (fdca_vrf_alloc_reg s).2

theorem vrf_alloc_of_full (t : Nat) (h : vrfFull t) :
    fdca_vrf_alloc_reg t = (-ENOSPC, t) := by
  have hnone : (List.range 32).find? (fun i => ! t.testBit i) = none := by
    rw [List.find?_eq_none]
    intro x hx
    rw [List.mem_range] at hx
    simp [h x hx]
  unfold fdca_vrf_alloc_reg fdca_vrf_find_first_zero
  rw [hnone]
  norm_num

theorem vrf_alloc_of_not_full (u : Nat) (h : ¬ vrfFull u) :
    ∃ i : Nat, i < 32 ∧ u.testBit i = false
      ∧ fdca_vrf_alloc_reg u = ((i : Int), u ||| 2 ^ i) := by
  cases hf : (List.range 32).find? (fun i => ! u.testBit i) with
  | none =>
      exfalso
      apply h
      intro i hi
      rw [List.find?_eq_none] at hf
      have := hf i (List.mem_range.mpr hi)
      simpa using this
  | some i =>
      have hmem : i ∈ List.range 32 := List.mem_of_find?_eq_some hf
      have hi32 : i < 32 := List.mem_range.mp hmem
      have hpred := List.find?_some hf
      have hffz : fdca_vrf_find_first_zero u = i := by
        unfold fdca_vrf_find_first_zero
        rw [hf]
      refine ⟨i, hi32, by simpa using hpred, ?_⟩
      unfold fdca_vrf_alloc_reg
      rw [hffz, if_pos hi32]

theorem vrfFull_iff_freeCount (s : Nat) : vrfFull s ↔ vrfFreeCount s = 0 := by
  unfold vrfFull vrfFreeCount
  rw [Finset.card_eq_zero, Finset.filter_eq_empty_iff]
  constructor
  · intro h i hi
    rw [Finset.mem_range] at hi
    simp [h i hi]
  · intro h i hi
    have := h (Finset.mem_range.mpr hi)
    simpa using this

theorem vrfFreeCount_le (s : Nat) : vrfFreeCount s ≤ 32 := by
  unfold vrfFreeCount
  simpa using Finset.card_filter_le (Finset.range 32)
    (fun i => s.testBit i = false)

theorem vrf_freeCount_alloc_lt (s : Nat) (h : ¬ vrfFull s) :
    vrfFreeCount (fdca_vrf_alloc_reg s).2 < vrfFreeCount s := by
  obtain ⟨i, hi32, hbit, halloc⟩ := vrf_alloc_of_not_full s h
  rw [halloc]
  unfold vrfFreeCount
  apply Finset.card_lt_card
  have hsub : (Finset.range 32).filter
        (fun j => (s ||| 2 ^ i).testBit j = false)
      ⊆ (Finset.range 32).filter (fun j => s.testBit j = false) := by
    intro j hj
    rw [Finset.mem_filter] at hj ⊢
    refine ⟨hj.1, ?_⟩
    have hj2 := hj.2
    rw [Nat.testBit_or] at hj2
    exact (Bool.or_eq_false_iff.mp hj2).1
  rw [Finset.ssubset_iff_of_subset hsub]
  refine ⟨i, ?_, ?_⟩
  · rw [Finset.mem_filter]
    exact ⟨Finset.mem_range.mpr hi32, hbit⟩
  · rw [Finset.mem_filter]
    rintro ⟨-, hcontra⟩
    rw [Nat.testBit_or, Nat.testBit_two_pow_self] at hcontra
    simp at hcontra

theorem vrf_alloc_iter_full (n : Nat) :
    ∀ s : Nat, vrfFreeCount s ≤ n → vrfFull (fdca_vrf_alloc_iter n s) := by
  induction n with
  | zero =>
      intro s h
      exact (vrfFull_iff_freeCount s).mpr (Nat.le_zero.mp h)
  | succ n ih =>
      intro s h
      show vrfFull (fdca_vrf_alloc_iter n (fdca_vrf_alloc_reg s).2)
      by_cases hfull : vrfFull s
      · have hstep : (fdca_vrf_alloc_reg s).2 = s := by
          rw [vrf_alloc_of_full s hfull]
        rw [hstep]
        have h0 : vrfFreeCount s = 0 := (vrfFull_iff_freeCount s).mp hfull
        exact ih s (by omega)
      · have hlt := vrf_freeCount_alloc_lt s hfull
        exact ih _ (by omega)

theorem vrf_free_clears (t : Nat) (r : Nat) (hr : r < 32)
    (hb : t.testBit r = true) :
    (fdca_vrf_free_reg (r : Int) t).testBit r = false := by
  unfold fdca_vrf_free_reg
  have hcond : ¬ ((r : Int) < 0 ∨ 32 ≤ (r : Int)) := by omega
  rw [if_neg hcond]
  have htn : ((r : Int)).toNat = r := Int.toNat_natCast r
  rw [htn, if_pos hb, Nat.testBit_xor, Nat.testBit_two_pow_self, hb]
  rfl

/-! ### fdca_vector_mem.c : vector memory operations -/

/-- struct fdca_vector_mem_op (fdca_vector_mem.c:15-28) without the
transient DMA staging fields, which the embedding threads explicitly. -/
structure VectorMemOp where
  type : VmemType
  base_addr : Nat
  stride : Nat
  num_elements : Nat
  element_size : Nat
  is_load : Bool
deriving Repr, DecidableEq

/-- Environment oracles for the execution path: hardware presence, the
outcomes of the two possible dma_alloc_coherent calls, and the
completion-poll result (0, -EIO, or -ETIMEDOUT). -/
structure VMemEnv where
  vpu_present : Bool
  dma_alloc_ok : Bool
  indices_alloc_ok : Bool
  wait_ret : Int
deriving Repr, DecidableEq

/-- Result of fdca_vector_mem_execute together with the number of
dma_alloc_coherent invocations made along the way. -/
structure VMemResult where
  ret : Int
  dma_alloc_calls : Nat
deriving Repr, DecidableEq

/-- The total transfer size computed by fdca_vector_mem_prepare_dma
(fdca_vector_mem.c:37-58): none models the default branch (-EINVAL). -/
def fdca_vector_mem_total_size (op : VectorMemOp) : Option Nat :=
  match op.type with
  | VmemType.UNIT_STRIDE => some (op.num_elements * op.element_size)
  | VmemType.STRIDED => some (op.num_elements * op.stride)
  | VmemType.INDEXED => some (op.num_elements * op.element_size)
  | VmemType.SEGMENT => some (op.num_elements * op.element_size)
  | VmemType.WHOLE_REG => none

/-- fdca_vector_mem_prepare_dma (fdca_vector_mem.c:33-69): computes the
total size, then allocates the DMA staging buffer (one allocator call,
whatever the size — including zero).  Returns (result, allocator
invocations). -/
def fdca_vector_mem_prepare_dma (env : VMemEnv) (op : VectorMemOp) :
    Int × Nat :=
  match fdca_vector_mem_total_size op with
  | none => (-EINVAL, 0)
  | some _ => if env.dma_alloc_ok then (0, 1) else (-ENOMEM, 1)

/-- fdca_vector_mem_execute (fdca_vector_mem.c:258-315): hardware check,
DMA staging, mode dispatch (the indexed mode stages its index array in a
second DMA allocation, fdca_vector_mem.c:157-163), completion wait,
cleanup.  The MMIO register programming of the sub-operations has no
observable effect in the model; their return values and allocator calls
are kept. -/
def fdca_vector_mem_execute (env : VMemEnv) (op : VectorMemOp) :
    VMemResult :=
  if env.vpu_present = false then { ret := -ENODEV, dma_alloc_calls := 0 }
  else
    let prep := fdca_vector_mem_prepare_dma env op
    if prep.1 ≠ 0 then { ret := prep.1, dma_alloc_calls := prep.2 }
    else
      match op.type with
      | VmemType.INDEXED =>
          if env.indices_alloc_ok then
            { ret := env.wait_ret, dma_alloc_calls := prep.2 + 1 }
          else
            { ret := -ENOMEM, dma_alloc_calls := prep.2 + 1 }
      | VmemType.WHOLE_REG =>
          { ret := -EINVAL, dma_alloc_calls := prep.2 }
      | _ => { ret := env.wait_ret, dma_alloc_calls := prep.2 }

/-- The §8 scenario input: a unit-stride operation with zero elements on
an available device with a functioning DMA allocator. -/
def C7_zero_element_op : VectorMemOp :=
  { type := VmemType.UNIT_STRIDE
    base_addr := 0x1000
    stride := 0
    num_elements := 0
    element_size := 4
    is_load := true }

/-- Environment for the C7 scenario: device present, allocations succeed,
the hardware reports completion. -/
def C7_env : VMemEnv :=
  { vpu_present := true
    dma_alloc_ok := true
    indices_alloc_ok := true
    wait_ret := 0 }

/-! ### Theorems for claims C3, C8 (hazard predicate) -/

/-- Claim C3: conflicts(a,b) is true exactly when either instruction
modifies VL, or they share a destination (WAW), or one destination equals
one of the other's sources (RAW/WAR), or a mask user is paired with a
destination of register 0, or both access memory; and the scenario
a={vd=5,vs1=1,vs2=2}, b={vd=3,vs1=5,vs2=4} conflicts (RAW on v5). -/
theorem C3_conflicts_characterization :
    (∀ a b : RvvInstr, fdca_rvv_instr_conflicts a b = true ↔
      (a.modifies_vl = true ∨ b.modifies_vl = true
       ∨ a.vd = b.vd
       ∨ a.vd = b.vs1 ∨ a.vd = b.vs2
       ∨ b.vd = a.vs1 ∨ b.vd = a.vs2
       ∨ ((a.uses_mask = true ∨ b.uses_mask = true) ∧ (a.vd = 0 ∨ b.vd = 0))
       ∨ (a.memory_access = true ∧ b.memory_access = true)))
    ∧ fdca_rvv_instr_conflicts (plainInstr 5 1 2) (plainInstr 3 5 4) = true := by
  constructor
  · intro a b
    simp only [fdca_rvv_instr_conflicts, Bool.or_eq_true, Bool.and_eq_true,
      beq_iff_eq]
    tauto
  · rfl

/-- Claim C8: the hazard predicate is symmetric, and in particular when
a.vd = b.vs1 both argument orders report a conflict. -/
theorem C8_conflicts_symmetric :
    (∀ a b : RvvInstr,
      fdca_rvv_instr_conflicts a b = fdca_rvv_instr_conflicts b a)
    ∧ (∀ a b : RvvInstr, a.vd = b.vs1 →
        fdca_rvv_instr_conflicts a b = true
        ∧ fdca_rvv_instr_conflicts b a = true) := by
  constructor
  · intro a b
    rw [Bool.eq_iff_iff]
    simp only [fdca_rvv_instr_conflicts, Bool.or_eq_true, Bool.and_eq_true,
      beq_iff_eq]
    constructor <;> · intro h; tauto
  · intro a b h
    constructor <;> simp [fdca_rvv_instr_conflicts, h]

/-- Witness for C8: a={vd=7,vs1=1,vs2=2}, b={vd=3,vs1=7,vs2=4} satisfy
a.vd = b.vs1 (and a.vs1 ≠ b.vd), and both argument orders conflict. -/
theorem C8_conflicts_symmetric_witness :
    (plainInstr 7 1 2).vd = (plainInstr 3 7 4).vs1
    ∧ fdca_rvv_instr_conflicts (plainInstr 7 1 2) (plainInstr 3 7 4) = true
    ∧ fdca_rvv_instr_conflicts (plainInstr 3 7 4) (plainInstr 7 1 2) = true :=
  ⟨rfl,
    (C8_conflicts_symmetric.2 (plainInstr 7 1 2) (plainInstr 3 7 4) rfl).1,
    (C8_conflicts_symmetric.2 (plainInstr 7 1 2) (plainInstr 3 7 4) rfl).2⟩

/-! ### Theorems for claim C4 (decoder classification) -/

/-- Decode classification exactly as claim C4 words it: load/store base
opcodes give VMEM, base opcode 0x57 dispatches on funct3 into VARITH or
(funct3 = 0x7) VSETVLI, everything else is INVALID. -/
def C4_claimed_decode (opcode : Nat) : RvvInstrType :=
  if opcode &&& 0x7F = 0x07 ∨ opcode &&& 0x7F = 0x27 then RvvInstrType.VMEM
  else if opcode &&& 0x7F = 0x57 then
    (if (opcode >>> 12) &&& 0x7 = 0x7 then RvvInstrType.VSETVLI
     else RvvInstrType.VARITH)
  else RvvInstrType.INVALID

/-- Claim C4 counterexample: the instruction word 0x43 (base opcode 0x43,
the fused multiply-add class) is classified VARITH by the code, while the
claim's enumeration (C4_claimed_decode) makes it INVALID. -/
theorem C4_counterexample :
    fdca_rvv_decode_instr_type 0x43 = RvvInstrType.VARITH
    ∧ C4_claimed_decode 0x43 = RvvInstrType.INVALID := by
  constructor <;> rfl

/-- Claim C4 as amended: the madd-class base opcode 0x43 also yields
VARITH. -/
def C4_amended_decode (opcode : Nat) : RvvInstrType :=
  if opcode &&& 0x7F = 0x07 ∨ opcode &&& 0x7F = 0x27 then RvvInstrType.VMEM
  else if opcode &&& 0x7F = 0x57 then
    (if (opcode >>> 12) &&& 0x7 = 0x7 then RvvInstrType.VSETVLI
     else RvvInstrType.VARITH)
  else if opcode &&& 0x7F = 0x43 then RvvInstrType.VARITH
  else RvvInstrType.INVALID

/-- Claim C4 (amended): the decoder classifies every 32-bit word by its
7-bit base opcode as the amended enumeration says (load/store → VMEM,
0x57 dispatching on funct3 → VARITH / VSETVLI, 0x43 → VARITH, otherwise
INVALID); the parsing entry point rejects INVALID with DecodeError
(-EINVAL); and base 0x57 with funct3 0x7 decodes to VSETVLI. -/
theorem C4_decode_amended :
    (∀ w : Nat, fdca_rvv_decode_instr_type w = C4_amended_decode w)
    ∧ (∀ w : Nat, fdca_rvv_decode_instr_type w = RvvInstrType.INVALID →
        fdca_rvv_parse_instr w = Except.error (-EINVAL))
    ∧ fdca_rvv_decode_instr_type 0x7057 = RvvInstrType.VSETVLI := by
  refine ⟨?_, ?_, rfl⟩
  · intro w
    have hf : (w >>> 12) &&& 0x7 ≤ 7 := Nat.and_le_right
    unfold fdca_rvv_decode_instr_type C4_amended_decode
    split_ifs <;> first | rfl | omega
  · intro w h
    unfold fdca_rvv_parse_instr
    simp [h]

/-- Witness for C4 (amended) at word 0: base opcode 0 is not in the
enumeration, the decoder yields INVALID and parsing fails with -EINVAL. -/
theorem C4_decode_amended_witness :
    fdca_rvv_decode_instr_type 0 = RvvInstrType.INVALID
    ∧ fdca_rvv_parse_instr 0 = Except.error (-EINVAL) :=
  ⟨rfl, C4_decode_amended.2.1 0 rfl⟩

/-! ### Theorems for claim C5 (descriptor validation) -/

/-- A descriptor whose type is INVALID but whose fields violate none of
the failure conditions enumerated by claim C5. -/
def C5_invalid_type_instr : RvvInstr :=
  { opcode := 0
    type := RvvInstrType.INVALID
    vmem_type := VmemType.UNIT_STRIDE
    varith_type := VarithType.ADD
    vd := 1
    vs1 := 2
    vs2 := 3
    vm := false
    vl_setting := 0
    uses_mask := false
    modifies_vl := false
    memory_access := false
    latency := 0 }

/-- Claim C5 counterexample: this descriptor satisfies none of the four
failure conditions of the claim (registers in range, not a masked memory
op with vd = 0, not a reduction, not an over-limit VSETVLI), yet
validation does not succeed, because its type is INVALID and the code's
default branch rejects it. -/
theorem C5_counterexample :
    (C5_invalid_type_instr.vd < 32 ∧ C5_invalid_type_instr.vs1 < 32
      ∧ C5_invalid_type_instr.vs2 < 32)
    ∧ ¬(C5_invalid_type_instr.type = RvvInstrType.VMEM
        ∧ C5_invalid_type_instr.uses_mask = true
        ∧ C5_invalid_type_instr.vd = 0)
    ∧ ¬(C5_invalid_type_instr.type = RvvInstrType.VARITH
        ∧ C5_invalid_type_instr.varith_type = VarithType.REDUCE
        ∧ C5_invalid_type_instr.vd ≠ C5_invalid_type_instr.vs1)
    ∧ ¬(C5_invalid_type_instr.type = RvvInstrType.VSETVLI
        ∧ 1024 < C5_invalid_type_instr.vl_setting)
    ∧ fdca_rvv_validate_instr C5_invalid_type_instr ≠ 0 := by
  decide

/-- Claim C5 (amended): validation fails with RangeError (-ERANGE) if any
register field is ≥ 32; then with InvalidOperand (-EINVAL) if a masked
memory instruction targets register 0, or a reduction's destination
differs from its first source; with RangeError if a VSETVLI requests a VL
above 1024; with InvalidOperand if the descriptor's type is not one of
VMEM / VARITH / VSETVLI; and succeeds otherwise. -/
theorem C5_validate_amended (i : RvvInstr) :
    (fdca_rvv_validate_instr i = 0 ↔
      (i.vd < 32 ∧ i.vs1 < 32 ∧ i.vs2 < 32
       ∧ (i.type = RvvInstrType.VMEM → ¬(i.uses_mask = true ∧ i.vd = 0))
       ∧ (i.type = RvvInstrType.VARITH →
           (i.varith_type = VarithType.REDUCE → i.vd = i.vs1))
       ∧ (i.type = RvvInstrType.VSETVLI → i.vl_setting ≤ 1024)
       ∧ (i.type = RvvInstrType.VMEM ∨ i.type = RvvInstrType.VARITH
          ∨ i.type = RvvInstrType.VSETVLI)))
    ∧ ((32 ≤ i.vd ∨ 32 ≤ i.vs1 ∨ 32 ≤ i.vs2) →
        fdca_rvv_validate_instr i = -ERANGE)
    ∧ (i.vd < 32 → i.vs1 < 32 → i.vs2 < 32 →
        ((i.type = RvvInstrType.VMEM → i.uses_mask = true → i.vd = 0 →
            fdca_rvv_validate_instr i = -EINVAL)
        ∧ (i.type = RvvInstrType.VARITH →
            i.varith_type = VarithType.REDUCE → i.vd ≠ i.vs1 →
            fdca_rvv_validate_instr i = -EINVAL)
        ∧ (i.type = RvvInstrType.VSETVLI → 1024 < i.vl_setting →
            fdca_rvv_validate_instr i = -ERANGE)
        ∧ (i.type = RvvInstrType.VAMO ∨ i.type = RvvInstrType.INVALID →
            fdca_rvv_validate_instr i = -EINVAL))) := by
  unfold fdca_rvv_validate_instr FDCA_RVV_NUM_VREGS
  cases htype : i.type <;>
    split_ifs <;>
      simp_all [EINVAL, ERANGE] <;>
        omega

/-- Witness for C5 (amended) at the INVALID-typed descriptor: registers
in range, validation returns -EINVAL. -/
theorem C5_validate_amended_witness :
    fdca_rvv_validate_instr C5_invalid_type_instr = -EINVAL :=
  ((C5_validate_amended C5_invalid_type_instr).2.2 (by decide) (by decide)
    (by decide)).2.2.2 (Or.inr rfl)

/-! ### Theorems for claim C10 (mask flag vs encoded vm bit) -/

/-- The extracted vm field is zero exactly when bit 25 of the word is
clear. -/
theorem vm_bit_clear_iff (w : Nat) :
    (((w >>> 25) &&& 0x1 == 0) = true ↔ w.testBit 25 = false) := by
  rw [Nat.testBit_to_div_mod, Nat.and_one_is_mod, Nat.shiftRight_eq_div_pow]
  simp only [beq_iff_eq, decide_eq_false_iff_not]
  omega

/-- Claim C10: for every word accepted as VMEM or VARITH, the parsed vm
flag is true exactly when the encoded vm bit (bit 25) is 0, and the
stored uses_mask flag equals vm. -/
theorem C10_parse_mask_flag (w : Nat) (i : RvvInstr)
    (hp : fdca_rvv_parse_instr w = Except.ok i)
    (ht : i.type = RvvInstrType.VMEM ∨ i.type = RvvInstrType.VARITH) :
    (i.vm = true ↔ w.testBit 25 = false) ∧ i.uses_mask = i.vm := by
  unfold fdca_rvv_parse_instr at hp
  cases hd : fdca_rvv_decode_instr_type w <;> rw [hd] at hp <;>
    simp only [reduceCtorEq, if_false, if_true, reduceIte,
      Except.ok.injEq, Except.error.injEq] at hp
  case VMEM =>
    subst hp
    exact ⟨vm_bit_clear_iff w, rfl⟩
  case VARITH =>
    subst hp
    exact ⟨vm_bit_clear_iff w, rfl⟩
  case VSETVLI =>
    subst hp
    simp at ht

/-- Concrete VARITH descriptor produced by parsing the word 0x57 (base
opcode 0x57, funct3 0, vm bit clear). -/
def C10_example_instr : RvvInstr :=
  { opcode := 87
    type := RvvInstrType.VARITH
    vmem_type := VmemType.UNIT_STRIDE
    varith_type := VarithType.ADD
    vd := 0
    vs1 := 0
    vs2 := 0
    vm := true
    vl_setting := 0
    uses_mask := true
    modifies_vl := false
    memory_access := false
    latency := 2 }

/-- Witness for C10 at the word 0x57: it parses to a VARITH descriptor
whose vm flag reflects the clear bit 25 and whose uses_mask equals vm. -/
theorem C10_parse_mask_flag_witness :
    fdca_rvv_parse_instr 87 = Except.ok C10_example_instr
    ∧ ((C10_example_instr.vm = true ↔ Nat.testBit 87 25 = false)
       ∧ C10_example_instr.uses_mask = C10_example_instr.vm) :=
  ⟨rfl, C10_parse_mask_flag 87 C10_example_instr rfl (Or.inr rfl)⟩

/-! ### Theorems for claims C9, C7 -/

/-- Claim C9: from any bitmap state, 32 allocations reach the full state;
on a full state a further alloc_register fails with NoCapacity (-ENOSPC)
and leaves the bitmap unchanged; and after freeing any allocated register
the next alloc_register succeeds, returning an index that was free. -/
theorem C9_vrf_allocator (s : Nat) :
    vrfFull (fdca_vrf_alloc_iter 32 s)
    ∧ (∀ t : Nat, vrfFull t → fdca_vrf_alloc_reg t = (-ENOSPC, t))
    ∧ (∀ t r : Nat, r < 32 → t.testBit r = true →
        ∃ i : Nat, i < 32
          ∧ (fdca_vrf_free_reg (r : Int) t).testBit i = false
          ∧ fdca_vrf_alloc_reg (fdca_vrf_free_reg (r : Int) t)
              = ((i : Int), fdca_vrf_free_reg (r : Int) t ||| 2 ^ i)) := by
  refine ⟨vrf_alloc_iter_full 32 s (vrfFreeCount_le s),
    fun t ht => vrf_alloc_of_full t ht, ?_⟩
  intro t r hr hb
  have hclear := vrf_free_clears t r hr hb
  have hnf : ¬ vrfFull (fdca_vrf_free_reg (r : Int) t) := by
    intro hfull
    rw [hfull r hr] at hclear
    exact absurd hclear (by simp)
  exact vrf_alloc_of_not_full _ hnf

/-- Witness for C9: the full bitmap 2^32 - 1 rejects a further
allocation with -ENOSPC, and after freeing register 5 the next
allocation succeeds. -/
theorem C9_vrf_allocator_witness :
    fdca_vrf_alloc_reg (2 ^ 32 - 1) = (-ENOSPC, 2 ^ 32 - 1)
    ∧ ∃ i : Nat, i < 32
        ∧ (fdca_vrf_free_reg ((5 : Nat) : Int) (2 ^ 32 - 1)).testBit i = false
        ∧ fdca_vrf_alloc_reg (fdca_vrf_free_reg ((5 : Nat) : Int) (2 ^ 32 - 1))
            = ((i : Int),
               fdca_vrf_free_reg ((5 : Nat) : Int) (2 ^ 32 - 1) ||| 2 ^ i) :=
  ⟨(C9_vrf_allocator 0).2.1 (2 ^ 32 - 1) (by decide),
   (C9_vrf_allocator 0).2.2 (2 ^ 32 - 1) 5 (by decide) (by decide)⟩

/-- Claim C7 (code-bug evidence): on the §8 scenario input with
num_elements = 0 the execution path performs the DMA staging-buffer
allocation (of zero bytes) and runs to successful completion — the code
contains no element-count validation, so it does not fail before the DMA
allocator is called as the spec requires. -/
theorem C7_zero_elements_reaches_dma :
    (fdca_vector_mem_execute C7_env C7_zero_element_op).dma_alloc_calls = 1
    ∧ (fdca_vector_mem_execute C7_env C7_zero_element_op).ret = 0 := by
  constructor <;> rfl

end FDCA
